import Mathlib

/-
  Shallow embedding of the OpenStream real-time slideshow editing channel
  (src/backend/openstream/project/consumers.py, src/backend/openstream/app/permissions.py).

  The embedding models `SlideshowConsumer` (the Connection Session of the
  spec) as explicit state passing over a `Session` record, with the side
  effects of a handler call collected into a trace of `Action`s.  Database
  access (Django ORM), SimpleJWT token verification and serializer
  validation are external collaborators, modelled as oracle functions in
  `Env`; the slideshow table itself is an explicit `Store` so that patches
  are observable by later loads.  `print` calls in the source are console
  logging, not wire traffic, and are not modelled.
-/

namespace OpenStream

/-- JSON values, as produced by `json.loads` and consumed by `json.dumps`. -/
inductive Json where
  | null
  | bool (b : Bool)
  | num (n : Int)
  | str (s : String)
  | arr (xs : List Json)
  | obj (kvs : List (String × Json))

/-- A received WebSocket text frame: either `json.loads` raises
`JSONDecodeError`, or it yields a JSON value. -/
inductive Frame where
  | malformed
  | parsed (j : Json)

/-- Python exceptions that the embedded code can raise where the source
leaves them uncaught (or catches them with a generic handler). -/
inductive PyExc where
  | keyError
  | typeError
  | attrError
deriving DecidableEq, Repr

/-- Observable effects of a handler call, in order.

`send` and `close` are operations on this connection only
(`self.send` / `self.close` in the source).  `verifyToken` marks a call of
`get_user_from_token` (the Token Verifier).  `dbPatch` marks an invocation
of `patch_slideshow`.  `groupSend`, `groupAdd` and `groupDiscard` mirror the
channel-layer operations the repository uses in its `ChatConsumer`
(`SlideshowConsumer` has its group broadcast commented out).
`presenceAdd`, `presenceRemove` and `presenceBroadcast` are Modelled from
the spec: the Presence Registry operations of the spec (add / remove / presence
broadcast); no code under src/ implements a presence registry, so no
embedded function ever emits them. -/
inductive Action where
  | send (msg : Json)
  | close (code : Option Nat)
  | verifyToken (tok : Json)
  | dbPatch (data : Json)
  | groupSend (group : String) (msg : Json)
  | groupAdd (group : String)
  | groupDiscard (group : String)
  | presenceAdd (doc : String) (uid : Nat)
  | presenceRemove (doc : String) (uid : Nat)
  | presenceBroadcast (doc : String)

/-- A Django auth user (as returned by `User.objects.get`). -/
structure UserT where
  id : Nat
  username : String
deriving DecidableEq, Repr

/-- A Branch row (`app.models.Branch`); only its id is relevant here. -/
structure Branch where
  id : String
deriving DecidableEq, Repr

/-- Outcome of `get_user_from_token`: a user, a `TokenError` (invalid or
expired token, including unparseable ones), or `User.DoesNotExist`. -/
inductive VerifyResult where
  | ok (u : UserT)
  | tokenError
  | noUser
deriving DecidableEq, Repr

/-- A Slideshow row: its branch foreign key and its serialized content
(`name`, `slideshow_data`, ... collapsed into one JSON payload). -/
structure SlideRecord where
  branch : String
  data : Json

/-- The slideshow table, keyed by primary key. -/
def Store := List (String × SlideRecord)

/-- External collaborators: the Token Verifier, the ORM lookups behind
`get_branch_for_user` (`app/permissions.py`), and the serializer
validate-and-save step of `SlideshowSerializer(slideshow, data=data,
partial=True)`.  `patchApply old d` returns the new serialized content on
`is_valid()`, or `none` for a validation failure, in which case
`patchErrors old d` is `str(serializer.errors)`. -/
structure Env where
  verify : Json → VerifyResult
  branchById : String → Option Branch
  isSuperAdmin : Option UserT → Bool
  isOrgAdmin : Option UserT → Branch → Bool
  isSuborgAdmin : Option UserT → Branch → Bool
  isBranchMember : Option UserT → Branch → Bool
  patchApply : Json → Json → Option Json
  patchErrors : Json → Json → String

/-- Per-connection state of `SlideshowConsumer`.  `user = none` stands for
`AnonymousUser()`.  `slideshow_id` and `branch_id` are `none` both before
the attribute is set and when the query parameter was absent (the Python
`getattr(self, _, None)` does not distinguish the two).  `authTimerActive`
tracks whether the `auth_timer` task is still pending. -/
structure Session where
  user : Option UserT
  authenticated : Bool
  slideshow_id : Option String
  branch_id : Option String
  slideshow : Option Json
  authTimerActive : Bool

/-- Connection addressing fixed at accept time: the `slideshow_id` URL
kwarg from the routing pattern, and the first `branch` query parameter
(`query_params.get("branch", [None])[0]`). -/
structure Scope where
  slideshow_id : String
  branchQuery : Option String
deriving DecidableEq, Repr

/-- First-match association lookup on a parsed JSON object
(`json.loads` produces dicts with unique keys). -/
def jLookup : List (String × Json) → String → Option Json
  | [], _ => none
  | (k, v) :: rest, key => if k = key then some v else jLookup rest key

/-- Python truthiness of a JSON value (`not x`). -/
def Json.falsy : Json → Bool
  | .null => true
  | .bool b => !b
  | .num n => n = 0
  | .str s => s = ""
  | .arr xs => xs.isEmpty
  | .obj kvs => kvs.isEmpty

/-- `isinstance(data, dict) and data` applied to the result of
`text_data_object.get("data")`. -/
def isNonEmptyObj : Option Json → Bool
  | some (.obj (_ :: _)) => true
  | _ => false

/-- Python `x == "lit"` for an optional JSON value (`None == "lit"` is false). -/
def optEqStr (x : Option Json) (lit : String) : Bool :=
  match x with
  | some (.str s) => s == lit
  | _ => false

/-- Python `x == "lit"` for a JSON value. -/
def Json.eqStr (x : Json) (lit : String) : Bool :=
  match x with
  | .str s => s == lit
  | _ => false

/-- The dict `SlideshowConsumer` uses to report collaborator failures:
`return ("type": "error", "error_message": msg)` as a JSON object. -/
def errorDict (msg : String) : Json :=
  .obj [("type", .str "error"), ("error_message", .str msg)]

/-- `results.get("type") == "error"` (`results` is a dict on every path). -/
def isErrorResult (results : Json) : Bool :=
  match results with
  | .obj kvs => optEqStr (jLookup kvs "type") "error"
  | _ => false

/-- `results["error_message"]` as used when forwarding an error result
(present on every error dict the source builds). -/
def errVal (results : Json) : Json :=
  match results with
  | .obj kvs => (jLookup kvs "error_message").getD .null
  | _ => .null

/-- `SlideshowSerializer(ss, ...).data`: the serialized row.  Both the
load path (context `include_slideshow_data = "true"`) and the patch
return path (default context, which also includes `slideshow_data`)
render the same fields; the payload never carries a "type" key. -/
def serializeSlideshow (pk : String) (r : SlideRecord) : Json :=
  .obj [("id", .str pk), ("branch", .str r.branch), ("slideshow_data", r.data)]

/-- Replace the record stored under `pk` (the serializer `save()`). -/
def storeSet : Store → String → SlideRecord → Store
  | [], _, _ => []
  | (k, w) :: rest, pk, r =>
      if k = pk then (pk, r) :: storeSet rest pk r
      else (k, w) :: storeSet rest pk r

/-- Error raised by `get_branch_for_user`: `Http404` from
`get_object_or_404`, or a `ValueError` with its message. -/
inductive BranchErr where
  | http404
  | valueError (msg : String)

/-- `AnonymousUser().username` is the empty string. -/
def usernameOf : Option UserT → String
  | some u => u.username
  | none => ""

/-- `app.permissions.get_branch_for_user`: returns the branch after
verifying the user is org admin, suborg admin, branch member or super
admin; raises `ValueError` on a falsy branch id or when no membership
grants access, `Http404` when the branch does not exist. -/
def get_branch_for_user (env : Env) (user : Option UserT) (branch_id : String) :
    Except BranchErr Branch :=
  if branch_id = "" then .error (.valueError "branch_id is required.")
  else
    match env.branchById branch_id with
    | none => .error .http404
    | some branch =>
      if env.isSuperAdmin user then .ok branch
      else if env.isOrgAdmin user branch then .ok branch
      else if env.isSuborgAdmin user branch then .ok branch
      else if env.isBranchMember user branch then .ok branch
      else .error (.valueError
        ("User \x27" ++ usernameOf user ++
          "\x27 does not have permission to access branch_id=" ++ branch_id ++ "."))

/-- `get_slideshow`: resolves the branch (access check included) and the
slideshow row, returning either the serialized slideshow or an error
dict.  All collaborator failures are caught and mapped to error dicts. -/
def get_slideshow (env : Env) (store : Store) (s : Session) : Json :=
  match s.branch_id with
  | none => errorDict "Branch id not found"
  | some bid =>
    match get_branch_for_user env s.user bid with
    | .error .http404 => errorDict "No branch matches with that branch id"
    | .error (.valueError m) => errorDict m
    | .ok branch =>
      match s.slideshow_id with
      | none => errorDict "Slideshow id not found"
      | some pk =>
        match List.lookup pk store with
        | none => errorDict "Slideshow not found"
        | some r =>
          if r.branch = branch.id then serializeSlideshow pk r
          else errorDict "Slideshow not found"

/-- `patch_slideshow`: same branch/slideshow resolution as
`get_slideshow`, then serializer validate-and-save.  Returns the result
dict together with the (possibly updated) store.  The `branch` field is
read-only in the serializer, so the stored branch is preserved. -/
def patch_slideshow (env : Env) (store : Store) (s : Session) (d : Json) :
    Json × Store :=
  match s.branch_id with
  | none => (errorDict "Branch id not found", store)
  | some bid =>
    match get_branch_for_user env s.user bid with
    | .error .http404 => (errorDict "No branch matches with that branch id", store)
    | .error (.valueError m) => (errorDict m, store)
    | .ok branch =>
      match s.slideshow_id with
      | none => (errorDict "Slideshow id not found", store)
      | some pk =>
        match List.lookup pk store with
        | none => (errorDict "Slideshow not found", store)
        | some r =>
          if r.branch = branch.id then
            match env.patchApply r.data d with
            | some newData =>
                let updated : SlideRecord := { r with data := newData }
                (serializeSlideshow pk updated, storeSet store pk updated)
            | none =>
                (errorDict ("Slideshow not updated. Reason: " ++ env.patchErrors r.data d),
                 store)
          else (errorDict "Slideshow not found", store)

/-- The payload of `close_with_auth_error`: note it carries no "code" key. -/
def missingAuthMsg : Json := .obj [("error", .str "Missing authentication")]

/-- `AuthenticatedConsumer.close_with_auth_error`: sends the error payload
and closes the connection with the given code. -/
def close_with_auth_error (code : Nat) : List Action :=
  [.send missingAuthMsg, .close (some code)]

/-- The acknowledgement sent on successful authentication. -/
def authenticatedMsg : Json := .obj [("type", .str "authenticated")]

/-- `AuthenticatedConsumer.authenticate_user`: returns the updated session,
the emitted actions, and the boolean result.  Calling `.get` on a non-dict
payload raises `AttributeError`, which escapes to the caller; on a dict,
`.get` is association lookup, inlined here. -/
def authenticate_user (env : Env) (s : Session) (data : Json) :
    Except PyExc (Session × List Action × Bool) :=
  match data with
  | .obj kvs =>
    if !optEqStr (jLookup kvs "type") "authenticate" then
      .ok (s, close_with_auth_error 4002, false)
    else
      match jLookup kvs "token" with
      | none => .ok (s, close_with_auth_error 4004, false)
      | some t =>
        if t.falsy then .ok (s, close_with_auth_error 4004, false)
        else
          match env.verify t with
          | .tokenError => .ok (s, .verifyToken t :: close_with_auth_error 4001, false)
          | .noUser => .ok (s, .verifyToken t :: close_with_auth_error 4004, false)
          | .ok u =>
              .ok ({ s with user := some u, authenticated := true,
                            authTimerActive := false },
                   [.verifyToken t, .send authenticatedMsg], true)
  | _ => .error .attrError

/-- `SlideshowConsumer.connect`: anonymous, unauthenticated session with a
pending authentication timer. -/
def connectInit : Session :=
  { user := none, authenticated := false, slideshow_id := none, branch_id := none,
    slideshow := none, authTimerActive := true }

/-- `SlideshowConsumer.disconnect_if_not_authenticated`: the body run when
the 5-second `AUTH_TIMEOUT` timer fires. -/
def disconnect_if_not_authenticated (s : Session) : List Action :=
  if s.authenticated then [] else close_with_auth_error 4001

/-- `SlideshowConsumer.disconnect`: the source only prints the close code;
it changes no state and performs no wire, group or presence operation. -/
def disconnect (s : Session) (close_code : Nat) : Session × List Action :=
  (s, [])

/-- Error payload for an unparseable frame from an authenticated client. -/
def invalidJsonMsg : Json := .obj [("error", .str "Invalid JSON data")]

/-- Error payload for an update without a usable `data` object. -/
def missingDataMsg : Json := .obj [("error", .str "Missing or invalid data")]

/-- Acknowledgement for a successful update. -/
def slideshowUpdatedMsg : Json := .obj [("message", .str "Slideshow updated")]

/-- `SlideshowConsumer.handle_authenticated_message`.  `text_data_object["type"]`
is an unguarded subscript: a non-dict payload raises `TypeError` and a dict
without a "type" key raises `KeyError`, neither of which is caught. -/
def handle_authenticated_message (env : Env) (store : Store) (s : Session)
    (frame : Frame) : Except PyExc (Session × Store × List Action) :=
  match frame with
  | .malformed => .ok (s, store, [.send invalidJsonMsg])
  | .parsed (.obj kvs) =>
    match jLookup kvs "type" with
    | none => .error .keyError
    | some t =>
      if t.eqStr "update" then
        let d := jLookup kvs "data"
        if isNonEmptyObj d then
          let res := patch_slideshow env store s (d.getD .null)
          if isErrorResult res.1 then
            .ok (s, res.2, [.dbPatch (d.getD .null), .send (.obj [("error", errVal res.1)])])
          else
            .ok ({ s with slideshow := some res.1 }, res.2,
                 [.dbPatch (d.getD .null), .send slideshowUpdatedMsg])
        else
          .ok (s, store, [.send missingDataMsg])
      else
        .ok (s, store, [])
  | .parsed _ => .error .typeError

/-- `SlideshowConsumer.receive`.  In the unauthenticated branch every
exception is caught (`JSONDecodeError` → close 4005, anything else →
close 4006); in the authenticated branch exceptions escape. -/
def receive (env : Env) (scope : Scope) (store : Store) (s : Session)
    (frame : Frame) : Except PyExc (Session × Store × List Action) :=
  if s.authenticated then handle_authenticated_message env store s frame
  else
    .ok (match frame with
      | .malformed => (s, store, [.close (some 4005)])
      | .parsed data =>
        match authenticate_user env s data with
        | .error _ => (s, store, [.close (some 4006)])
        | .ok (s1, acts, false) => (s1, store, acts)
        | .ok (s1, acts, true) =>
          let s2 := { s1 with slideshow_id := some scope.slideshow_id,
                              branch_id := scope.branchQuery }
          let results := get_slideshow env store s2
          if isErrorResult results then
            (s2, store, acts ++ [.send (.obj [("error", errVal results)])])
          else
            ({ s2 with slideshow := some results }, store,
             acts ++ [.send (.obj [("data", results)])]))

/-- The JSON payloads written to this connection, in order. -/
def wireMessages (acts : List Action) : List Json :=
  acts.filterMap fun a => match a with | .send m => some m | _ => none

/-- Whether the trace closes this connection. -/
def hasClose (acts : List Action) : Bool :=
  acts.any fun a => match a with | .close _ => true | _ => false

/-- The close codes issued by the trace, in order. -/
def closeCodes (acts : List Action) : List (Option Nat) :=
  acts.filterMap fun a => match a with | .close c => some c | _ => none

/-- Whether the trace calls the Token Verifier (`get_user_from_token`). -/
def callsVerifier (acts : List Action) : Bool :=
  acts.any fun a => match a with | .verifyToken _ => true | _ => false

/-- Whether the trace invokes `patch_slideshow` (the Document Store
`apply_patch` of the spec). -/
def callsPatch (acts : List Action) : Bool :=
  acts.any fun a => match a with | .dbPatch _ => true | _ => false

/-- Whether the trace performs any channel-layer group broadcast. -/
def hasGroupSend (acts : List Action) : Bool :=
  acts.any fun a => match a with | .groupSend _ _ => true | _ => false

/-- Whether the trace touches group membership or the presence registry at
all (group join/leave, presence add/remove, presence broadcast). -/
def touchesPresenceOrGroup (acts : List Action) : Bool :=
  acts.any fun a =>
    match a with
    | .groupSend _ _ => true
    | .groupAdd _ => true
    | .groupDiscard _ => true
    | .presenceAdd _ _ => true
    | .presenceRemove _ _ => true
    | .presenceBroadcast _ => true
    | _ => false

/-- Modelled from the spec: replaying a trace against the Presence
Registry of the spec (`add` / `remove` keyed by principal id per document).  No code
under src/ implements such a registry; this replay interprets the
spec-modelled `presenceAdd` / `presenceRemove` actions so that claims about
`list(document id)` can be stated. -/
def presenceList (doc : String) (acts : List Action) : List Nat :=
  acts.foldl
    (fun reg a =>
      match a with
      | .presenceAdd d uid => if d = doc ∧ ¬ uid ∈ reg then reg ++ [uid] else reg
      | .presenceRemove d uid => if d = doc then reg.filter (· ≠ uid) else reg
      | _ => reg)
    []

/-- `jLookup "key"` of a JSON object, as a total observer. -/
def jField (j : Json) (key : String) : Option Json :=
  match j with
  | .obj kvs => jLookup kvs key
  | _ => none

/-- The canonical client authentication frame. -/
def authFrame (t : Json) : Json :=
  .obj [("type", .str "authenticate"), ("token", t)]

/-- The canonical client update frame. -/
def updateFrame (d : Json) : Json :=
  .obj [("type", .str "update"), ("data", d)]

/-!  Concrete fixtures, mirroring the WebSocket tests of the repository
(user `superadmin`, slideshow 1, branch 15, token accepted by the
verifier).  Used by counterexamples and by the witnesses of the
hypothesised theorems. -/

/-- The fixture user (`superadmin`, a super admin). -/
def user1 : UserT := { id := 1, username := "superadmin" }

/-- The fixture branch (id 15, as in `/ws/slideshows/1/?branch=15`). -/
def branch15 : Branch := { id := "15" }

/-- Serialized content of the fixture slideshow before any update. -/
def slideData0 : Json :=
  .obj [("slides", .arr [.obj [("name", .str "Old slide name")]])]

/-- The fixture slideshow table: slideshow 1 in branch 15. -/
def store1 : Store := [("1", { branch := "15", data := slideData0 })]

/-- The fixture scope: `/ws/slideshows/1/?branch=15`. -/
def scope1 : Scope := { slideshow_id := "1", branchQuery := some "15" }

/-- Fixture collaborators: token "tok1" verifies to `user1`, who is a
super admin; branch 15 exists; a patch replaces the stored content with
the patch payload. -/
def env1 : Env :=
  { verify := fun t => if t.eqStr "tok1" then .ok user1 else .tokenError
    branchById := fun b => if b = "15" then some branch15 else none
    isSuperAdmin := fun u => u = some user1
    isOrgAdmin := fun _ _ => false
    isSuborgAdmin := fun _ _ => false
    isBranchMember := fun _ _ => false
    patchApply := fun _ d => some d
    patchErrors := fun _ _ => "" }

/-- Fixture collaborators for a denied principal: the token verifies, but
no membership grants `user1` access to any branch. -/
def envDenied : Env :=
  { env1 with isSuperAdmin := fun _ => false }

/-- The fixture session after a successful authentication on `scope1`. -/
def authedSession : Session :=
  { user := some user1, authenticated := true, slideshow_id := some "1",
    branch_id := some "15", slideshow := some (serializeSlideshow "1" ⟨"15", slideData0⟩),
    authTimerActive := false }

/-- The session state `receive` reaches right after `authenticate_user`
succeeds and the addressing of the scope has been copied onto the session. -/
def postAuthSession (scope : Scope) (s : Session) (u : UserT) : Session :=
  { s with user := some u, authenticated := true, authTimerActive := false,
           slideshow_id := some scope.slideshow_id, branch_id := scope.branchQuery }

/-- After overwriting the row stored under a present key, a lookup of that
key returns the new record. -/
theorem lookup_storeSet (store : Store) (pk : String) (r v : SlideRecord)
    (h : List.lookup pk store = some r) :
    List.lookup pk (storeSet store pk v) = some v := by
  induction store with
  | nil => simp [List.lookup] at h
  | cons kv rest ih =>
    obtain ⟨k, w⟩ := kv
    by_cases hk : k = pk
    · subst hk
      simp [storeSet, List.lookup]
    · have hne : (pk == k) = false := beq_eq_false_iff_ne.mpr (Ne.symm hk)
      simp only [List.lookup, hne] at h
      simp only [storeSet, if_neg hk, List.lookup, hne]
      exact ih h

/-- Claim C1: contrary to the required cleanup, `SlideshowConsumer.disconnect`
does nothing at all: the session is unchanged and the trace is empty, so no
presence entry is removed, the session leaves no group, no presence list is
broadcast, and replaying the trace leaves the presence registry untouched. -/
theorem disconnect_performs_no_cleanup (s : Session) (code : Nat) (doc : String) :
    disconnect s code = (s, []) ∧
    touchesPresenceOrGroup (disconnect s code).2 = false ∧
    wireMessages (disconnect s code).2 = [] ∧
    presenceList doc (disconnect s code).2 = [] :=
  ⟨rfl, rfl, rfl, rfl⟩

/-- Claim C4: when the authentication deadline fires on a still
unauthenticated session, the consumer sends the "Missing authentication"
payload and closes with 4001, and the trace registers no presence entry —
but the payload carries no "code" field at all, contrary to the claim (and
to the own test `test_auth_timeout` of the repository). -/
theorem auth_timeout_payload_and_close (s : Session)
    (hs : s.authenticated = false) :
    disconnect_if_not_authenticated s = [.send missingAuthMsg, .close (some 4001)] ∧
    jField missingAuthMsg "error" = some (.str "Missing authentication") ∧
    jField missingAuthMsg "code" = none ∧
    touchesPresenceOrGroup (disconnect_if_not_authenticated s) = false := by
  have h1 : disconnect_if_not_authenticated s = [.send missingAuthMsg, .close (some 4001)] := by
    simp [disconnect_if_not_authenticated, hs, close_with_auth_error]
  refine ⟨h1, rfl, rfl, ?_⟩
  rw [h1]
  rfl

/-- Claim C4 witness: the freshly connected session is unauthenticated, and
the deadline handler behaves as stated. -/
theorem auth_timeout_payload_and_close_witness :
    disconnect_if_not_authenticated connectInit =
      [.send missingAuthMsg, .close (some 4001)] ∧
    jField missingAuthMsg "error" = some (.str "Missing authentication") ∧
    jField missingAuthMsg "code" = none ∧
    touchesPresenceOrGroup (disconnect_if_not_authenticated connectInit) = false :=
  auth_timeout_payload_and_close connectInit rfl

/-- Claim C9: while unauthenticated, a parsed first message that is a JSON
object whose "type" is not "authenticate" yields exactly the error message
and a close with 4002, and the trace contains no Token Verifier call. -/
theorem wrong_first_message_closes_4002 (env : Env) (scope : Scope) (store : Store)
    (s : Session) (kvs : List (String × Json))
    (hs : s.authenticated = false)
    (hty : optEqStr (jLookup kvs "type") "authenticate" = false) :
    receive env scope store s (.parsed (.obj kvs)) =
      .ok (s, store, [.send missingAuthMsg, .close (some 4002)]) ∧
    callsVerifier [.send missingAuthMsg, .close (some 4002)] = false := by
  refine ⟨?_, rfl⟩
  simp [receive, hs, authenticate_user, hty, close_with_auth_error]

/-- Claim C9 witness: the negative-test message of the repository
(type "message") is rejected with 4002 and no verifier call. -/
theorem wrong_first_message_closes_4002_witness :
    receive env1 scope1 store1 connectInit
        (.parsed (.obj [("type", .str "message"), ("data", .str "x")])) =
      .ok (connectInit, store1, [.send missingAuthMsg, .close (some 4002)]) ∧
    callsVerifier [.send missingAuthMsg, .close (some 4002)] = false :=
  wrong_first_message_closes_4002 env1 scope1 store1 connectInit
    [("type", .str "message"), ("data", .str "x")] rfl rfl

/-- Claim C10: for an authenticate message, an absent or empty token closes
with 4004 (without consulting the verifier), while a present, truthy token
the Token Verifier rejects closes with 4001. -/
theorem authenticate_failure_close_codes (env : Env) (scope : Scope) (store : Store)
    (s : Session) (kvs : List (String × Json)) (t : Json)
    (hs : s.authenticated = false)
    (hty : optEqStr (jLookup kvs "type") "authenticate" = true) :
    ((jLookup kvs "token" = none ∨ jLookup kvs "token" = some (.str "")) →
      receive env scope store s (.parsed (.obj kvs)) =
        .ok (s, store, [.send missingAuthMsg, .close (some 4004)])) ∧
    (jLookup kvs "token" = some t → t.falsy = false → env.verify t = .tokenError →
      receive env scope store s (.parsed (.obj kvs)) =
        .ok (s, store, [.verifyToken t, .send missingAuthMsg, .close (some 4001)])) := by
  constructor
  · rintro (h | h) <;>
      simp [receive, hs, authenticate_user, hty, h, Json.falsy, close_with_auth_error]
  · intro h hf hv
    simp [receive, hs, authenticate_user, hty, h, hf, hv, close_with_auth_error]

/-- Claim C10 witness: an empty token string closes with 4004; the token
"bad", rejected by the fixture verifier, closes with 4001. -/
theorem authenticate_failure_close_codes_witness :
    (receive env1 scope1 store1 connectInit
        (.parsed (.obj [("type", .str "authenticate"), ("token", .str "")])) =
      .ok (connectInit, store1, [.send missingAuthMsg, .close (some 4004)])) ∧
    (receive env1 scope1 store1 connectInit
        (.parsed (.obj [("type", .str "authenticate"), ("token", .str "bad")])) =
      .ok (connectInit, store1,
           [.verifyToken (.str "bad"), .send missingAuthMsg, .close (some 4001)])) :=
  ⟨(authenticate_failure_close_codes env1 scope1 store1 connectInit
      [("type", .str "authenticate"), ("token", .str "")] (.str "") rfl rfl).1
      (Or.inr rfl),
   (authenticate_failure_close_codes env1 scope1 store1 connectInit
      [("type", .str "authenticate"), ("token", .str "bad")] (.str "bad") rfl rfl).2
      rfl rfl rfl⟩

/-- Claim C5: on a fully successful authentication (token verifies, access
allowed and document found, i.e. `get_slideshow` does not return an error
dict), the messages sent to the connection are exactly the authenticated
acknowledgement followed by one data message with the current snapshot. -/
theorem auth_success_message_sequence (env : Env) (scope : Scope) (store : Store)
    (s : Session) (t : Json) (u : UserT)
    (hs : s.authenticated = false)
    (hf : t.falsy = false)
    (hv : env.verify t = .ok u)
    (hload : isErrorResult (get_slideshow env store (postAuthSession scope s u)) = false) :
    receive env scope store s (.parsed (authFrame t)) =
      .ok ({ postAuthSession scope s u with
              slideshow := some (get_slideshow env store (postAuthSession scope s u)) },
           store,
           [.verifyToken t, .send authenticatedMsg,
            .send (.obj [("data", get_slideshow env store (postAuthSession scope s u))])]) ∧
    wireMessages
        [Action.verifyToken t, Action.send authenticatedMsg,
         Action.send (.obj [("data", get_slideshow env store (postAuthSession scope s u))])] =
      [authenticatedMsg,
       .obj [("data", get_slideshow env store (postAuthSession scope s u))]] := by
  refine ⟨?_, rfl⟩
  simp [receive, hs, authenticate_user, authFrame, jLookup, optEqStr, hf, hv,
        postAuthSession] at hload ⊢
  simp [hload]

/-- Claim C5 witness: the fixture connection authenticating with "tok1"
receives exactly the acknowledgement and then the snapshot of slideshow 1. -/
theorem auth_success_message_sequence_witness :
    receive env1 scope1 store1 connectInit (.parsed (authFrame (.str "tok1"))) =
      .ok ({ postAuthSession scope1 connectInit user1 with
              slideshow := some (get_slideshow env1 store1 (postAuthSession scope1 connectInit user1)) },
           store1,
           [.verifyToken (.str "tok1"), .send authenticatedMsg,
            .send (.obj [("data", get_slideshow env1 store1 (postAuthSession scope1 connectInit user1))])]) ∧
    wireMessages
        [Action.verifyToken (.str "tok1"), Action.send authenticatedMsg,
         Action.send (.obj [("data", get_slideshow env1 store1 (postAuthSession scope1 connectInit user1))])] =
      [authenticatedMsg,
       .obj [("data", get_slideshow env1 store1 (postAuthSession scope1 connectInit user1))]] :=
  auth_success_message_sequence env1 scope1 store1 connectInit (.str "tok1") user1
    rfl rfl rfl rfl

/-- Claim C6: token verification success alone moves the session out of the
unauthenticated state.  When the subsequent `get_slideshow` fails (access
denied or document missing), the consumer has already set the authenticated
flag and sent the acknowledgement — the error is reported after the ack and
the connection is not closed — and a later update frame from this session
is dispatched to the authenticated handler and invokes `patch_slideshow`. -/
theorem verify_success_alone_authenticates (env : Env) (scope : Scope) (store : Store)
    (s : Session) (t : Json) (u : UserT) (dd : Json)
    (hs : s.authenticated = false)
    (hf : t.falsy = false)
    (hv : env.verify t = .ok u)
    (hload : isErrorResult (get_slideshow env store (postAuthSession scope s u)) = true)
    (hd : isNonEmptyObj (some dd) = true) :
    receive env scope store s (.parsed (authFrame t)) =
      .ok (postAuthSession scope s u, store,
           [.verifyToken t, .send authenticatedMsg,
            .send (.obj [("error", errVal (get_slideshow env store (postAuthSession scope s u)))])]) ∧
    (postAuthSession scope s u).authenticated = true ∧
    (∃ out, receive env scope store (postAuthSession scope s u) (.parsed (updateFrame dd)) =
        .ok out ∧ callsPatch out.2.2 = true ∧ hasClose out.2.2 = false) := by
  refine ⟨?_, rfl, ?_⟩
  · simp [receive, hs, authenticate_user, authFrame, jLookup, optEqStr, hf, hv,
          postAuthSession] at hload ⊢
    simp [hload]
  · have hauth : (postAuthSession scope s u).authenticated = true := rfl
    cases he : isErrorResult (patch_slideshow env store (postAuthSession scope s u) dd).1 with
    | true =>
        refine ⟨(postAuthSession scope s u,
                 (patch_slideshow env store (postAuthSession scope s u) dd).2,
                 [.dbPatch dd,
                  .send (.obj [("error",
                    errVal (patch_slideshow env store (postAuthSession scope s u) dd).1)])]),
                ?_, rfl, rfl⟩
        simp [receive, hauth, handle_authenticated_message, updateFrame, jLookup,
              Json.eqStr, hd, he]
    | false =>
        refine ⟨({ postAuthSession scope s u with
                    slideshow := some (patch_slideshow env store (postAuthSession scope s u) dd).1 },
                 (patch_slideshow env store (postAuthSession scope s u) dd).2,
                 [.dbPatch dd, .send slideshowUpdatedMsg]),
                ?_, rfl, rfl⟩
        simp [receive, hauth, handle_authenticated_message, updateFrame, jLookup,
              Json.eqStr, hd, he]

/-- Claim C6 witness: with the fixture collaborators but every membership
check denying access, authentication with "tok1" still authenticates the
session, and its follow-up update frame reaches `patch_slideshow`. -/
theorem verify_success_alone_authenticates_witness :
    receive envDenied scope1 store1 connectInit (.parsed (authFrame (.str "tok1"))) =
      .ok (postAuthSession scope1 connectInit user1, store1,
           [.verifyToken (.str "tok1"), .send authenticatedMsg,
            .send (.obj [("error",
              errVal (get_slideshow envDenied store1 (postAuthSession scope1 connectInit user1)))])]) ∧
    (postAuthSession scope1 connectInit user1).authenticated = true ∧
    (∃ out, receive envDenied scope1 store1 (postAuthSession scope1 connectInit user1)
        (.parsed (updateFrame (.obj [("slideshow_data", .str "new")]))) =
        .ok out ∧ callsPatch out.2.2 = true ∧ hasClose out.2.2 = false) :=
  verify_success_alone_authenticates envDenied scope1 store1 connectInit
    (.str "tok1") user1 (.obj [("slideshow_data", .str "new")]) rfl rfl rfl rfl rfl

/-- Claim C3 counterexample: a connection whose token verifies but whose
access check is denied is NOT closed with 4001: the full trace is the
verifier call, the authenticated acknowledgement and an application error
message; it contains no close action, and the session stays authenticated. -/
theorem access_denied_counterexample :
    receive envDenied scope1 store1 connectInit (.parsed (authFrame (.str "tok1"))) =
      .ok ({ connectInit with
              user := some user1, authenticated := true, authTimerActive := false,
              slideshow_id := some "1", branch_id := some "15" },
           store1,
           [.verifyToken (.str "tok1"), .send authenticatedMsg,
            .send (.obj [("error",
              .str "User \x27superadmin\x27 does not have permission to access branch_id=15.")])]) ∧
    hasClose
        [Action.verifyToken (.str "tok1"), Action.send authenticatedMsg,
         Action.send (.obj [("error",
           .str "User \x27superadmin\x27 does not have permission to access branch_id=15.")])] = false ∧
    ({ connectInit with
        user := some user1, authenticated := true, authTimerActive := false,
        slideshow_id := some "1", branch_id := some "15" } : Session).authenticated = true :=
  ⟨rfl, rfl, rfl⟩

/-- Claim C3 as amended: an access denial during authentication is treated
as an application error, not an authentication failure: the session keeps
the already-sent acknowledgement, receives the permission error message on
the open connection, is not closed (no close action, hence no 4001), and
remains authenticated. -/
theorem access_denied_reports_error_without_close (env : Env) (scope : Scope)
    (store : Store) (s : Session) (t : Json) (u : UserT) (bid msg : String)
    (hs : s.authenticated = false)
    (hf : t.falsy = false)
    (hv : env.verify t = .ok u)
    (hq : scope.branchQuery = some bid)
    (hden : get_branch_for_user env (some u) bid = .error (.valueError msg)) :
    receive env scope store s (.parsed (authFrame t)) =
      .ok (postAuthSession scope s u, store,
           [.verifyToken t, .send authenticatedMsg, .send (.obj [("error", .str msg)])]) ∧
    hasClose
        [Action.verifyToken t, Action.send authenticatedMsg,
         Action.send (.obj [("error", .str msg)])] = false ∧
    (postAuthSession scope s u).authenticated = true := by
  refine ⟨?_, rfl, rfl⟩
  have hload : get_slideshow env store (postAuthSession scope s u) = errorDict msg := by
    simp [get_slideshow, postAuthSession, hq, hden]
  simp [receive, hs, authenticate_user, authFrame, jLookup, optEqStr, hf, hv,
        postAuthSession] at hload ⊢
  simp [hload, errorDict, isErrorResult, errVal, jLookup, optEqStr]

/-- Claim C3 witness: the fixture denied principal receives the ack and the
permission error on an open, still-authenticated connection. -/
theorem access_denied_reports_error_without_close_witness :
    receive envDenied scope1 store1 connectInit (.parsed (authFrame (.str "tok1"))) =
      .ok (postAuthSession scope1 connectInit user1, store1,
           [.verifyToken (.str "tok1"), .send authenticatedMsg,
            .send (.obj [("error",
              .str "User \x27superadmin\x27 does not have permission to access branch_id=15.")])]) ∧
    hasClose
        [Action.verifyToken (.str "tok1"), Action.send authenticatedMsg,
         Action.send (.obj [("error",
           .str "User \x27superadmin\x27 does not have permission to access branch_id=15.")])] = false ∧
    (postAuthSession scope1 connectInit user1).authenticated = true :=
  access_denied_reports_error_without_close envDenied scope1 store1 connectInit
    (.str "tok1") user1 "15"
    "User \x27superadmin\x27 does not have permission to access branch_id=15."
    rfl rfl rfl rfl rfl

/-- Claim C2: contrary to the claimed broadcast, a successful update emits
exactly the patch invocation and one acknowledgement to the sender: the
trace contains no channel-layer group send and no data message carrying the
new snapshot, so no other connection (nor the sender) receives it. -/
theorem update_success_does_not_broadcast (env : Env) (scope : Scope) (store : Store)
    (s : Session) (dd : Json)
    (hs : s.authenticated = true)
    (hd : isNonEmptyObj (some dd) = true)
    (hp : isErrorResult (patch_slideshow env store s dd).1 = false) :
    receive env scope store s (.parsed (updateFrame dd)) =
      .ok ({ s with slideshow := some (patch_slideshow env store s dd).1 },
           (patch_slideshow env store s dd).2,
           [.dbPatch dd, .send slideshowUpdatedMsg]) ∧
    hasGroupSend [Action.dbPatch dd, Action.send slideshowUpdatedMsg] = false ∧
    wireMessages [Action.dbPatch dd, Action.send slideshowUpdatedMsg] =
      [slideshowUpdatedMsg] := by
  refine ⟨?_, rfl, rfl⟩
  simp [receive, hs, handle_authenticated_message, updateFrame, jLookup,
        Json.eqStr, hd, hp]

/-- Claim C2 witness: the fixture authenticated session committing an
update gets only the acknowledgement; nothing is broadcast. -/
theorem update_success_does_not_broadcast_witness :
    receive env1 scope1 store1 authedSession
        (.parsed (updateFrame (.obj [("slideshow_data", .str "new")]))) =
      .ok ({ authedSession with
              slideshow := some (patch_slideshow env1 store1 authedSession
                (.obj [("slideshow_data", .str "new")])).1 },
           (patch_slideshow env1 store1 authedSession
             (.obj [("slideshow_data", .str "new")])).2,
           [.dbPatch (.obj [("slideshow_data", .str "new")]), .send slideshowUpdatedMsg]) ∧
    hasGroupSend
        [Action.dbPatch (.obj [("slideshow_data", .str "new")]),
         Action.send slideshowUpdatedMsg] = false ∧
    wireMessages
        [Action.dbPatch (.obj [("slideshow_data", .str "new")]),
         Action.send slideshowUpdatedMsg] = [slideshowUpdatedMsg] :=
  update_success_does_not_broadcast env1 scope1 store1 authedSession
    (.obj [("slideshow_data", .str "new")]) rfl rfl rfl

/-- Claim C7 counterexample: a frame that is valid JSON (the empty object)
crashes the authenticated handler with an uncaught `KeyError` from
`text_data_object["type"]`, contradicting "processing never crashes the
session". -/
theorem authed_empty_object_crashes :
    handle_authenticated_message env1 store1 authedSession (.parsed (.obj [])) =
      .error .keyError :=
  rfl

/-- Claim C7 as amended: for an authenticated session, malformed JSON
yields exactly the structured error to this connection; a frame whose JSON
is an object carrying a "type" key never crashes and never closes — an
update with a missing or invalid data object yields exactly the structured
error, and any other type is a silent no-op — but a valid-JSON frame that
is not an object (TypeError) or lacks a "type" key (KeyError) raises an
uncaught exception. -/
theorem authed_message_handling (env : Env) (store : Store) (s : Session)
    (kvs : List (String × Json)) (t : Json)
    (ht : jLookup kvs "type" = some t) :
    handle_authenticated_message env store s .malformed =
      .ok (s, store, [.send invalidJsonMsg]) ∧
    (∃ out, handle_authenticated_message env store s (.parsed (.obj kvs)) = .ok out ∧
        hasClose out.2.2 = false) ∧
    (t.eqStr "update" = false →
      handle_authenticated_message env store s (.parsed (.obj kvs)) = .ok (s, store, [])) ∧
    (t.eqStr "update" = true → isNonEmptyObj (jLookup kvs "data") = false →
      handle_authenticated_message env store s (.parsed (.obj kvs)) =
        .ok (s, store, [.send missingDataMsg])) := by
  refine ⟨rfl, ?_, ?_, ?_⟩
  · cases hu : t.eqStr "update" with
    | false =>
        exact ⟨(s, store, []), by simp [handle_authenticated_message, ht, hu], rfl⟩
    | true =>
        cases hne : isNonEmptyObj (jLookup kvs "data") with
        | false =>
            exact ⟨(s, store, [.send missingDataMsg]),
                   by simp [handle_authenticated_message, ht, hu, hne], rfl⟩
        | true =>
            cases he : isErrorResult
                (patch_slideshow env store s ((jLookup kvs "data").getD .null)).1 with
            | true =>
                exact ⟨(s, (patch_slideshow env store s ((jLookup kvs "data").getD .null)).2,
                        [.dbPatch ((jLookup kvs "data").getD .null),
                         .send (.obj [("error",
                           errVal (patch_slideshow env store s
                             ((jLookup kvs "data").getD .null)).1)])]),
                       by simp [handle_authenticated_message, ht, hu, hne, he], rfl⟩
            | false =>
                exact ⟨({ s with slideshow := some (patch_slideshow env store s
                            ((jLookup kvs "data").getD .null)).1 },
                        (patch_slideshow env store s ((jLookup kvs "data").getD .null)).2,
                        [.dbPatch ((jLookup kvs "data").getD .null), .send slideshowUpdatedMsg]),
                       by simp [handle_authenticated_message, ht, hu, hne, he], rfl⟩
  · intro hu
    simp [handle_authenticated_message, ht, hu]
  · intro hu hne
    simp [handle_authenticated_message, ht, hu, hne]

/-- Claim C7 witness: an unrecognized type "ping" is a silent no-op, and an
update frame without a data object gets exactly the structured error. -/
theorem authed_message_handling_witness :
    (handle_authenticated_message env1 store1 authedSession
        (.parsed (.obj [("type", .str "ping")])) = .ok (authedSession, store1, [])) ∧
    (handle_authenticated_message env1 store1 authedSession
        (.parsed (.obj [("type", .str "update")])) =
      .ok (authedSession, store1, [.send missingDataMsg])) :=
  ⟨(authed_message_handling env1 store1 authedSession
      [("type", .str "ping")] (.str "ping") rfl).2.2.1 rfl,
   (authed_message_handling env1 store1 authedSession
      [("type", .str "update")] (.str "update") rfl).2.2.2 rfl rfl⟩

/-- Claim C8: an authenticated connection committing one update whose
validation succeeds receives exactly one "Slideshow updated"
acknowledgement, the store now holds the patched record, and a subsequent
`get_slideshow` on the same scope returns exactly that new snapshot. -/
theorem update_ack_once_and_snapshot_loadable (env : Env) (scope : Scope)
    (store : Store) (s : Session) (dd : Json) (bid pk : String) (br : Branch)
    (r : SlideRecord) (newData : Json)
    (hs : s.authenticated = true)
    (hbid : s.branch_id = some bid)
    (hpk : s.slideshow_id = some pk)
    (hbr : get_branch_for_user env s.user bid = .ok br)
    (hrec : List.lookup pk store = some r)
    (hb : r.branch = br.id)
    (hd : isNonEmptyObj (some dd) = true)
    (happ : env.patchApply r.data dd = some newData) :
    receive env scope store s (.parsed (updateFrame dd)) =
      .ok ({ s with slideshow := some (serializeSlideshow pk { r with data := newData }) },
           storeSet store pk { r with data := newData },
           [.dbPatch dd, .send slideshowUpdatedMsg]) ∧
    wireMessages [Action.dbPatch dd, Action.send slideshowUpdatedMsg] =
      [slideshowUpdatedMsg] ∧
    get_slideshow env (storeSet store pk { r with data := newData }) s =
      serializeSlideshow pk { r with data := newData } := by
  have hpatch : patch_slideshow env store s dd =
      (serializeSlideshow pk { r with data := newData },
       storeSet store pk { r with data := newData }) := by
    simp [patch_slideshow, hbid, hbr, hpk, hrec, hb, happ]
  have hnoterr : isErrorResult (serializeSlideshow pk { r with data := newData }) = false := rfl
  refine ⟨?_, rfl, ?_⟩
  · simp [receive, hs, handle_authenticated_message, updateFrame, jLookup,
          Json.eqStr, hd, hpatch, hnoterr]
  · have hlook := lookup_storeSet store pk r { r with data := newData } hrec
    rw [show ({ r with data := newData } : SlideRecord) =
          { branch := br.id, data := newData } by rw [hb]] at hlook ⊢
    simp [get_slideshow, hbid, hbr, hpk, hlook]

/-- Claim C8 witness: the fixture session updates slideshow 1; it gets one
acknowledgement and the follow-up load returns the patched snapshot. -/
theorem update_ack_once_and_snapshot_loadable_witness :
    receive env1 scope1 store1 authedSession
        (.parsed (updateFrame (.obj [("slideshow_data", .str "new")]))) =
      .ok ({ authedSession with
              slideshow := some (serializeSlideshow "1"
                { branch := "15", data := .obj [("slideshow_data", .str "new")] }) },
           storeSet store1 "1" { branch := "15", data := .obj [("slideshow_data", .str "new")] },
           [.dbPatch (.obj [("slideshow_data", .str "new")]), .send slideshowUpdatedMsg]) ∧
    wireMessages
        [Action.dbPatch (.obj [("slideshow_data", .str "new")]),
         Action.send slideshowUpdatedMsg] = [slideshowUpdatedMsg] ∧
    get_slideshow env1
        (storeSet store1 "1" { branch := "15", data := .obj [("slideshow_data", .str "new")] })
        authedSession =
      serializeSlideshow "1" { branch := "15", data := .obj [("slideshow_data", .str "new")] } :=
  update_ack_once_and_snapshot_loadable env1 scope1 store1 authedSession
    (.obj [("slideshow_data", .str "new")]) "15" "1" branch15
    { branch := "15", data := slideData0 } (.obj [("slideshow_data", .str "new")])
    rfl rfl rfl rfl rfl rfl rfl rfl

end OpenStream
